import Mathlib

/-!
Verification development for the U-Net notebook repository.

Part 1 embeds the dataset class `eyeballDataset` from the notebook
(`unet_recreation.ipynb`) as executable Lean definitions: Python dicts become
association lists with insert-overwrite semantics, Python exceptions become an
explicit error type, and each method of the class becomes a function returning
`Except PyError`.

Part 2 models the U-Net forward-shape computation.  The notebook describes the
architecture but contains no architecture code, so those definitions are
modelled from the specification (sections 4.3 to 4.7 of the spec); each such
definition carries a doc comment saying so.
-/

set_option autoImplicit false

universe u

/-- Python exception values that the embedded notebook code can raise. -/
inductive PyError where
  | KeyError (key : String)
  | TypeError (msg : String)
  | AttributeError (attr : String)
  | IndexError
  deriving DecidableEq, Repr

/-- A filesystem entry as produced by `Path.iterdir()`: the directory it came
from and its stem (`pathlib.Path.stem`, the filename without the final
suffix).  The notebook reads only `p.stem` and passes the path object itself
to `Image.open`. -/
structure FsPath where
  parent : String
  stem : String
  deriving DecidableEq, Repr

/-- A decoded image as returned by `PIL.Image.open`; the embedding keeps only
its provenance, which is all the claims need. -/
structure PILImage where
  source : FsPath
  deriving DecidableEq, Repr

/-- Embedding of `PIL.Image.open` applied to a path. -/
def imageOpen (p : FsPath) : PILImage := ⟨p⟩

/-- Interpolation modes of `torchvision.transforms.Resize`
(`InterpolationMode`); `Resize` defaults to bilinear when none is passed. -/
inductive InterpMode where
  | bilinear
  | nearest
  deriving DecidableEq, Repr

/-- The torchvision transform values that appear in the notebook.
`Resize 572 .bilinear` models `transforms.Resize(572)` (the interpolation
argument is the library default, bilinear, since the notebook passes none). -/
inductive Transform where
  | Resize (size : Nat) (interp : InterpMode)
  | ToTensor
  deriving DecidableEq, Repr

/-- Whether a transform resizes with the nearest-neighbor (label-preserving)
interpolation mode. -/
def Transform.usesNearest : Transform → Bool
  | .Resize _ i => i == InterpMode.nearest
  | .ToTensor => false

/-- A Python `set` object.  The set literal in the notebook holds transform
values; for the claims only the elements and the fact that the object is a
`set` matter, so the embedding keeps the elements as a list. -/
def PySet (α : Type u) : Type u := List α

/-- Calling a Python `set` object: `set` defines no `__call__`, so every call
expression `s(x)` raises `TypeError`, whatever the argument is. -/
def pyCallSet (s : PySet Transform) (x : PILImage) : Except PyError PILImage :=
  .error (.TypeError "set object is not callable")

/-- Python dict assignment `d[k] = v` on a dict kept as an insertion-ordered
association list: an existing key keeps its position and gets the new value, a
new key is appended. -/
def dictInsert {α : Type u} (d : List (String × α)) (k : String) (v : α) :
    List (String × α) :=
  if d.any (fun q => q.1 == k) then
    d.map (fun q => if q.1 == k then (k, v) else q)
  else
    d ++ [(k, v)]

/-- The dict built by a Python dict comprehension over the given key-value
pairs, in order: later pairs overwrite earlier ones with the same key. -/
def dictOf {α : Type u} (l : List (String × α)) : List (String × α) :=
  l.foldl (fun d q => dictInsert d q.1 q.2) []

/-- Python dict subscript `d[k]`: the stored value, or `KeyError` when the key
is absent. -/
def dictGet {α : Type u} (d : List (String × α)) (k : String) :
    Except PyError α :=
  match d.find? (fun q => q.1 == k) with
  | some q => .ok q.2
  | none => .error (.KeyError k)

/-- Python `d.keys()` as an ordered list. -/
def dictKeys {α : Type u} (d : List (String × α)) : List String :=
  d.map Prod.fst

/-- Python list subscript `l[i]` with an `int` index: non-negative indexes
from the front, negative indexes from the back, `IndexError` outside the
range. -/
def pyListGet {α : Type u} (l : List α) (i : Int) : Except PyError α :=
  let j : Int := if i < 0 then i + l.length else i
  if h : 0 ≤ j ∧ j.toNat < l.length then
    .ok (l.get ⟨j.toNat, h.2⟩)
  else
    .error .IndexError

/-- Python string slice `s[:-n]`: all characters but the last `n` (the empty
string when `n` is at least the length). -/
def pySliceDropLast (s : String) (n : Nat) : String :=
  ⟨s.data.take (s.data.length - n)⟩

/-- The object state built by `eyeballDataset.__init__`.  Its fields are
exactly the attributes that `__init__` assigns: `self.images`, `self.masks`,
`self.ids` and `self.transforms`; no `data` attribute is ever assigned. -/
structure eyeballDataset where
  images : List (String × FsPath)
  masks : List (String × FsPath)
  ids : List String
  transforms : PySet Transform

/-- Embedding of `eyeballDataset.__init__(image_path, mask_path)`:

* `self.images = {p.stem: p for p in image_path.iterdir()}`
* `self.masks = {p.stem[:-5]: p for p in mask_path.iterdir()}`
* `self.ids = list(self.images.keys())`
* `self.transforms = { transforms.Resize(572), transforms.ToTensor() }`
  (a set literal, not a `Compose`)

The directories are given as the lists of entries their `iterdir()` yields.
Note that the constructor performs no cross-check between the two mappings:
it is total and always returns an object. -/
def eyeballDataset.init (image_path mask_path : List FsPath) : eyeballDataset :=
  { images := dictOf (image_path.map (fun p => (p.stem, p)))
    masks := dictOf (mask_path.map (fun p => (pySliceDropLast p.stem 5, p)))
    ids := dictKeys (dictOf (image_path.map (fun p => (p.stem, p))))
    transforms := [Transform.Resize 572 InterpMode.bilinear, Transform.ToTensor] }

/-- Embedding of `eyeballDataset.__len__`: the body is `return len(self.data)`,
but `__init__` assigns only `images`, `masks`, `ids` and `transforms`, so the
attribute access `self.data` unconditionally raises `AttributeError`. -/
def eyeballDataset.len (d : eyeballDataset) : Except PyError Nat :=
  .error (.AttributeError "data")

/-- Embedding of `eyeballDataset.__getitem__(idx)`, step for step:
`id_ = self.ids[idx]`, `image = Image.open(self.images[id_])`,
`mask = Image.open(self.masks[id_])`, `image = self.transforms(image)`,
`mask = self.transforms(mask)`, `return image, mask`. -/
def eyeballDataset.getitem (d : eyeballDataset) (idx : Int) :
    Except PyError (PILImage × PILImage) :=
  match pyListGet d.ids idx with
  | .error e => .error e
  | .ok id_ =>
    match dictGet d.images id_ with
    | .error e => .error e
    | .ok imgPath =>
      let image := imageOpen imgPath
      match dictGet d.masks id_ with
      | .error e => .error e
      | .ok mskPath =>
        let mask := imageOpen mskPath
        match pyCallSet d.transforms image with
        | .error e => .error e
        | .ok image2 =>
          match pyCallSet d.transforms mask with
          | .error e => .error e
          | .ok mask2 => .ok (image2, mask2)

/-!
Part 2: the U-Net forward-shape computation.  The notebook contains no
architecture code, so every definition below is modelled from the spec
(sections 4.3 to 4.7) and tracks the shape bookkeeping the spec prescribes.
-/

/-- Modelled from the spec: a Feature Map's tracked shape, `(channels, height,
width)`; the batch dimension is handled separately (spec section 3). -/
structure Shape where
  channels : Nat
  height : Nat
  width : Nat
  deriving DecidableEq, Repr

/-- Modelled from the spec: a batch of Feature Maps, `(batch, channels,
height, width)` (spec section 6, model boundary). -/
structure BatchedShape where
  batch : Nat
  chw : Shape
  deriving DecidableEq, Repr

/-- Modelled from the spec: the padding policy of section 4.3 — `valid`
shrinks spatial dimensions per the original paper, `same` preserves them. -/
inductive Padding where
  | valid
  | same
  deriving DecidableEq, Repr

/-- Modelled from the spec: the fatal shape error of section 7: a
post-alignment spatial mismatch is `ShapeMismatchError`, never silently
resized. -/
inductive UNetError where
  | ShapeMismatchError
  deriving DecidableEq, Repr

/-- Modelled from the spec: spatial extent of one 3 by 3 convolution — a
`valid` convolution shrinks each spatial dimension by 2, a `same` one
preserves it. -/
def convOut (pad : Padding) (n : Nat) : Nat :=
  match pad with
  | .valid => n - 2
  | .same => n

/-- Modelled from the spec (section 4.3): a Convolutional Block is two chained
convolution plus nonlinearity stages taking the map to `cout` channels; each
stage applies the padding policy to both spatial dimensions. -/
def convBlock (pad : Padding) (cout : Nat) (s : Shape) : Shape :=
  ⟨cout, convOut pad (convOut pad s.height), convOut pad (convOut pad s.width)⟩

/-- Modelled from the spec (section 4.4): 2 by 2 max-pooling halves the
spatial dimensions and keeps the channel count. -/
def maxPool (s : Shape) : Shape :=
  ⟨s.channels, s.height / 2, s.width / 2⟩

/-- Modelled from the spec (section 4.4): one Encoder Stage runs the
Convolutional Block and returns the pre-downsample map (pushed to the Skip
Cache) together with the post-downsample map passed on. -/
def encoderStage (pad : Padding) (cout : Nat) (s : Shape) : Shape × Shape :=
  let pre := convBlock pad cout s
  (pre, maxPool pre)

/-- Modelled from the spec (section 4.6): the upsampling operation (transpose
convolution, stride 2) doubles the spatial dimensions and halves the channel
count. -/
def upConv (s : Shape) : Shape :=
  ⟨s.channels / 2, s.height * 2, s.width * 2⟩

/-- Modelled from the spec (glossary, section 4.6): Center Crop trims the
border of a map symmetrically to a target height and width; the top and left
margins take half of the excess, the bottom and right margins the rest. -/
def centerCrop (s : Shape) (h w : Nat) : Shape :=
  let top := (s.height - h) / 2
  let bottom := s.height - h - top
  let left := (s.width - w) / 2
  let right := s.width - w - left
  ⟨s.channels, s.height - top - bottom, s.width - left - right⟩

/-- Modelled from the spec (section 4.6, spatial alignment algorithm): under
`valid` the cached encoder map, being the larger one, is center-cropped to the
decoder map's height and width and the decoder map is never resized; under
`same` alignment is an identity pass with a dimension-equality assertion.
Any remaining mismatch is the fatal `ShapeMismatchError`. -/
def align (pad : Padding) (dec skip : Shape) :
    Except UNetError (Shape × Shape) :=
  match pad with
  | .valid =>
    if dec.height ≤ skip.height ∧ dec.width ≤ skip.width then
      .ok (dec, centerCrop skip dec.height dec.width)
    else
      .error .ShapeMismatchError
  | .same =>
    if dec.height = skip.height ∧ dec.width = skip.width then
      .ok (dec, skip)
    else
      .error .ShapeMismatchError

/-- Modelled from the spec (section 4.6): channel-wise concatenation of two
aligned maps requires equal spatial dimensions and adds the channel counts; a
disagreement is the fatal `ShapeMismatchError`. -/
def concatChannels (a b : Shape) : Except UNetError Shape :=
  if a.height = b.height ∧ a.width = b.width then
    .ok ⟨a.channels + b.channels, a.height, a.width⟩
  else
    .error .ShapeMismatchError

/-- Modelled from the spec (section 4.6): one Decoder Stage upsamples,
aligns against the matched cached encoder map, concatenates channel-wise and
runs the Convolutional Block down to `cout` channels. -/
def decoderStage (pad : Padding) (cout : Nat) (dec skip : Shape) :
    Except UNetError Shape := do
  let up := upConv dec
  let (d, k) ← align pad up skip
  let cat ← concatChannels d k
  pure (convBlock pad cout cat)

/-- Modelled from the spec (section 4.7): the Output Head is a single 1 by 1
convolution to `numClasses` channels, preserving spatial dimensions. -/
def outputHead (numClasses : Nat) (s : Shape) : Shape :=
  ⟨numClasses, s.height, s.width⟩

/-- Modelled from the spec (sections 4.4 to 4.6 and section 2 data flow): the
Encoder, Bottleneck and Decoder path — four Encoder Stages doubling channels
from `base`, the Bottleneck at `base * 16`, and four Decoder Stages consuming
the Skip Cache in reverse order. -/
def unetBody (pad : Padding) (base : Nat) (input : Shape) :
    Except UNetError Shape := do
  let (s1, d1) := encoderStage pad base input
  let (s2, d2) := encoderStage pad (base * 2) d1
  let (s3, d3) := encoderStage pad (base * 4) d2
  let (s4, d4) := encoderStage pad (base * 8) d3
  let b := convBlock pad (base * 16) d4
  let u1 ← decoderStage pad (base * 8) b s4
  let u2 ← decoderStage pad (base * 4) u1 s3
  let u3 ← decoderStage pad (base * 2) u2 s2
  let u4 ← decoderStage pad base u3 s1
  pure u4

/-- Modelled from the spec (sections 2 and 4.7): the full forward pass is the
Encoder, Bottleneck and Decoder path followed by the Output Head. -/
def unetForward (pad : Padding) (base numClasses : Nat) (input : Shape) :
    Except UNetError Shape :=
  (unetBody pad base input).map (outputHead numClasses)

/-- Modelled from the spec (section 6, model boundary): the model maps a batch
of Feature Maps to a batch of Feature Maps; the batch dimension passes through
the per-sample forward computation unchanged. -/
def unetForwardB (pad : Padding) (base numClasses : Nat) (x : BatchedShape) :
    Except UNetError BatchedShape :=
  (unetForward pad base numClasses x.chw).map (fun s => ⟨x.batch, s⟩)

/-!
Part 3: helper lemmas about the embedded Python primitives.
-/

/-- Center-cropping to a target no larger than the map yields exactly the
target height and width, with the channel count untouched. -/
lemma centerCrop_spec (s : Shape) (h w : Nat) (hh : h ≤ s.height)
    (hw : w ≤ s.width) : centerCrop s h w = ⟨s.channels, h, w⟩ := by
  simp only [centerCrop, Shape.mk.injEq, true_and]
  omega

/-- Slicing off the last five characters of a stem that ends in the literal
suffix underscore-mask returns the stem with that suffix removed. -/
lemma slice_strip (base : String) : pySliceDropLast (base ++ "_mask") 5 = base := by
  have hdata : (base ++ "_mask").data = base.data ++ "_mask".data :=
    String.data_append base "_mask"
  simp only [pySliceDropLast, hdata]
  have hlen : ("_mask".data).length = 5 := rfl
  rw [List.length_append, hlen, Nat.add_sub_cancel, List.take_left]

/-- Membership in the keys of a dict after one assignment. -/
lemma mem_dictKeys_dictInsert {α : Type u} (d : List (String × α)) (k : String)
    (v : α) (x : String) :
    x ∈ dictKeys (dictInsert d k v) ↔ x ∈ dictKeys d ∨ x = k := by
  unfold dictInsert
  by_cases hmem : d.any (fun q => q.1 == k) = true
  · rw [if_pos hmem]
    rw [List.any_eq_true] at hmem
    obtain ⟨q, hq, hqk⟩ := hmem
    have hk : k ∈ dictKeys d := by
      simp only [dictKeys, List.mem_map]
      exact ⟨q, hq, eq_of_beq hqk⟩
    have hkeys : dictKeys (d.map (fun q => if q.1 == k then (k, v) else q)) =
        dictKeys d := by
      simp only [dictKeys, List.map_map]
      apply List.map_congr_left
      intro a _
      by_cases ha : a.1 = k
      · simp [ha]
      · simp [ha]
    rw [hkeys]
    constructor
    · exact Or.inl
    · rintro (hx | rfl)
      · exact hx
      · exact hk
  · rw [if_neg hmem]
    simp [dictKeys]

/-- The key set of a dict built by comprehension is the set of keys of the
generating pairs. -/
lemma mem_dictKeys_dictOf {α : Type u} (l : List (String × α)) (k : String) :
    k ∈ dictKeys (dictOf l) ↔ k ∈ l.map Prod.fst := by
  suffices h : ∀ (acc : List (String × α)),
      k ∈ dictKeys (l.foldl (fun d q => dictInsert d q.1 q.2) acc) ↔
        k ∈ dictKeys acc ∨ k ∈ l.map Prod.fst by
    have := h []
    simpa [dictOf, dictKeys] using this
  induction l with
  | nil => intro acc; simp
  | cons q t ih =>
    intro acc
    simp only [List.foldl_cons, ih, mem_dictKeys_dictInsert, List.map_cons,
      List.mem_cons]
    tauto

/-- Subscripting a dict with one of its keys succeeds. -/
lemma dictGet_ok_of_mem_keys {α : Type u} (d : List (String × α)) (k : String)
    (hk : k ∈ dictKeys d) : ∃ v, dictGet d k = .ok v := by
  unfold dictGet
  cases hfind : d.find? (fun q => q.1 == k) with
  | some q => exact ⟨q.2, rfl⟩
  | none =>
    exfalso
    rw [List.find?_eq_none] at hfind
    simp only [dictKeys, List.mem_map] at hk
    obtain ⟨q, hq, hqk⟩ := hk
    exact hfind q hq (by simp [hqk])

/-- The only error a dict subscript can raise is `KeyError` on the queried
key. -/
lemma dictGet_error_eq {α : Type u} (d : List (String × α)) (k : String)
    (e : PyError) (h : dictGet d k = .error e) : e = .KeyError k := by
  unfold dictGet at h
  cases hfind : d.find? (fun q => q.1 == k) with
  | some q => rw [hfind] at h; exact absurd h (by simp)
  | none => rw [hfind] at h; injection h with h; exact h.symm

/-- A successful list subscript returns an element of the list. -/
lemma pyListGet_ok_mem {α : Type u} (l : List α) (i : Int) (a : α)
    (h : pyListGet l i = .ok a) : a ∈ l := by
  dsimp only [pyListGet] at h
  split at h
  all_goals split at h
  all_goals first
    | (injection h with h; subst h; first
        | exact List.get_mem _ _
        | exact List.getElem_mem _)
    | exact absurd h (by simp)

/-!
Part 4: the claims.
-/

/-- Claim C1: in every Decoder Stage, when the cached encoder Feature Map is
spatially at least as large as the upsampled decoder map (H at least h, W at
least w), the alignment step center-crops the cached map, the cropped map has
exactly the decoder map's height and width, the decoder map itself is passed
through unchanged (never resized down), and the channel-wise concatenation
has spatial size (h, w) exactly with the channel counts added. -/
theorem c1_alignment_center_crops_to_decoder (dec skip : Shape)
    (hH : dec.height ≤ skip.height) (hW : dec.width ≤ skip.width) :
    align Padding.valid dec skip =
      .ok (dec, centerCrop skip dec.height dec.width) ∧
    centerCrop skip dec.height dec.width =
      ⟨skip.channels, dec.height, dec.width⟩ ∧
    concatChannels dec (centerCrop skip dec.height dec.width) =
      .ok ⟨dec.channels + skip.channels, dec.height, dec.width⟩ := by
  have hcrop := centerCrop_spec skip dec.height dec.width hH hW
  refine ⟨?_, hcrop, ?_⟩
  · simp [align, hH, hW]
  · rw [hcrop]
    simp [concatChannels]

/-- Witness for claim C1, at the spec's own example: a 56 by 56 decoder map
paired with a 64 by 64 cached encoder map crops to 56 by 56 before the
concatenation. -/
theorem c1_alignment_witness :
    (56 ≤ 64) ∧
    (align Padding.valid ⟨512, 56, 56⟩ ⟨512, 64, 64⟩ =
        .ok (⟨512, 56, 56⟩, centerCrop ⟨512, 64, 64⟩ 56 56) ∧
      centerCrop ⟨512, 64, 64⟩ 56 56 = ⟨512, 56, 56⟩ ∧
      concatChannels ⟨512, 56, 56⟩ (centerCrop ⟨512, 64, 64⟩ 56 56) =
        .ok ⟨1024, 56, 56⟩) :=
  ⟨by decide,
    c1_alignment_center_crops_to_decoder ⟨512, 56, 56⟩ ⟨512, 64, 64⟩
      (by decide) (by decide)⟩

/-- Counterexample to claim C2 as stated: under the "same" policy the forward
pass on a batch of 3 by 572 by 572 inputs does not produce 572 by 572
outputs — the third max-pool floors 143 to 71, the matching upsample yields
142, and the dimension-equality assertion of same-policy alignment fails, so
the pass ends in `ShapeMismatchError`. -/
theorem c2_same_policy_fails_at_572 :
    unetForwardB Padding.same 64 2 ⟨4, ⟨3, 572, 572⟩⟩ =
      .error UNetError.ShapeMismatchError ∧
    unetForwardB Padding.same 64 2 ⟨4, ⟨3, 572, 572⟩⟩ ≠
      .ok ⟨4, ⟨2, 572, 572⟩⟩ := by
  have h : unetForwardB Padding.same 64 2 ⟨4, ⟨3, 572, 572⟩⟩ =
      .error UNetError.ShapeMismatchError := rfl
  refine ⟨h, ?_⟩
  rw [h]
  simp

/-- Claim C2 as amended: for every batch size and class count, a batch of
3 by 572 by 572 inputs with base channel count 64 produces, under the "valid"
policy, an output with the configured class count as channels and spatial
size 388 by 388; under the "same" policy the 572 by 572 input fails with
`ShapeMismatchError` (572 is not divisible by 16), while an input whose
spatial size is divisible by 16, such as 512 by 512, is preserved exactly. -/
theorem c2_forward_output_shape (b nc : Nat) :
    unetForwardB Padding.valid 64 nc ⟨b, ⟨3, 572, 572⟩⟩ =
      .ok ⟨b, ⟨nc, 388, 388⟩⟩ ∧
    unetForwardB Padding.same 64 nc ⟨b, ⟨3, 572, 572⟩⟩ =
      .error UNetError.ShapeMismatchError ∧
    unetForwardB Padding.same 64 nc ⟨b, ⟨3, 512, 512⟩⟩ =
      .ok ⟨b, ⟨nc, 512, 512⟩⟩ := by
  have h1 : unetBody Padding.valid 64 ⟨3, 572, 572⟩ = .ok ⟨64, 388, 388⟩ := rfl
  have h2 : unetBody Padding.same 64 ⟨3, 572, 572⟩ =
      .error UNetError.ShapeMismatchError := rfl
  have h3 : unetBody Padding.same 64 ⟨3, 512, 512⟩ = .ok ⟨64, 512, 512⟩ := rfl
  have e1 : unetForwardB Padding.valid 64 nc ⟨b, ⟨3, 572, 572⟩⟩ =
      ((unetBody Padding.valid 64 ⟨3, 572, 572⟩).map (outputHead nc)).map
        (fun s => ⟨b, s⟩) := rfl
  have e2 : unetForwardB Padding.same 64 nc ⟨b, ⟨3, 572, 572⟩⟩ =
      ((unetBody Padding.same 64 ⟨3, 572, 572⟩).map (outputHead nc)).map
        (fun s => ⟨b, s⟩) := rfl
  have e3 : unetForwardB Padding.same 64 nc ⟨b, ⟨3, 512, 512⟩⟩ =
      ((unetBody Padding.same 64 ⟨3, 512, 512⟩).map (outputHead nc)).map
        (fun s => ⟨b, s⟩) := rfl
  refine ⟨?_, ?_, ?_⟩
  · rw [e1, h1]; rfl
  · rw [e2, h2]; rfl
  · rw [e3, h3]; rfl

/-- Claim C3 fails on the code: constructing the dataset over an image
directory and a mask directory whose derived identifier sets are disjoint
succeeds — `__init__` builds the two mappings without any cross-check and no
`DataIntegrityError` exists in the notebook — and the mismatch surfaces only
later, as a `KeyError` from the mask lookup inside `__getitem__`. -/
theorem c3_construction_succeeds_on_mismatch :
    (eyeballDataset.init [⟨"data/training/images", "21_training"⟩]
        [⟨"data/training/mask", "25_training_mask"⟩]).ids = ["21_training"] ∧
    dictKeys (eyeballDataset.init [⟨"data/training/images", "21_training"⟩]
        [⟨"data/training/mask", "25_training_mask"⟩]).masks = ["25_training"] ∧
    "21_training" ∉ dictKeys (eyeballDataset.init
        [⟨"data/training/images", "21_training"⟩]
        [⟨"data/training/mask", "25_training_mask"⟩]).masks ∧
    (eyeballDataset.init [⟨"data/training/images", "21_training"⟩]
        [⟨"data/training/mask", "25_training_mask"⟩]).getitem 0 =
      .error (PyError.KeyError "21_training") := by
  refine ⟨rfl, rfl, by decide, rfl⟩

/-- Claim C4 fails on the code: the transform pipeline the constructor stores
is the set literal holding `Resize(572)` (library-default bilinear
interpolation) and `ToTensor()`; it contains no nearest-neighbor policy, the
identical pipeline value is used for the image and the mask, and calling it
on a mask raises `TypeError` instead of performing any label-preserving
resize. -/
theorem c4_no_nearest_neighbor_mask_policy :
    (eyeballDataset.init [⟨"data/training/images", "22_training"⟩]
        [⟨"data/training/mask", "22_training_mask"⟩]).transforms =
      [Transform.Resize 572 InterpMode.bilinear, Transform.ToTensor] ∧
    ((eyeballDataset.init [⟨"data/training/images", "22_training"⟩]
        [⟨"data/training/mask", "22_training_mask"⟩]).transforms.all
      (fun t => ! t.usesNearest)) = true ∧
    pyCallSet (eyeballDataset.init [⟨"data/training/images", "22_training"⟩]
        [⟨"data/training/mask", "22_training_mask"⟩]).transforms
      (imageOpen ⟨"data/training/mask", "22_training_mask"⟩) =
      .error (PyError.TypeError "set object is not callable") :=
  ⟨rfl, rfl, rfl⟩

/-- Claim C5 fails on the code: even on a perfectly matched image and mask
pair, `__getitem__` raises `TypeError` when it calls the stored transform
set, so the Sample Transform never returns a resized, normalized tensor
pair at 572 by 572 (and the stored `Resize(572)` would in any case fix only
the shorter edge, not both dimensions). -/
theorem c5_transform_yields_no_resized_pair :
    (eyeballDataset.init [⟨"data/training/images", "23_training"⟩]
        [⟨"data/training/mask", "23_training_mask"⟩]).getitem 0 =
      .error (PyError.TypeError "set object is not callable") := rfl

/-- Claim C6 fails on the code: on a valid two-image dataset with matching
identifiers, `__len__` does not return 2 — its body reads `self.data`, an
attribute `__init__` never assigns, so it raises `AttributeError` (the id
list the claim describes does have length 2). -/
theorem c6_len_raises_attribute_error :
    (eyeballDataset.init
        [⟨"data/training/images", "24_training"⟩,
          ⟨"data/training/images", "25_training"⟩]
        [⟨"data/training/mask", "24_training_mask"⟩,
          ⟨"data/training/mask", "25_training_mask"⟩]).len =
      .error (PyError.AttributeError "data") ∧
    (eyeballDataset.init
        [⟨"data/training/images", "24_training"⟩,
          ⟨"data/training/images", "25_training"⟩]
        [⟨"data/training/mask", "24_training_mask"⟩,
          ⟨"data/training/mask", "25_training_mask"⟩]).ids.length = 2 :=
  ⟨rfl, rfl⟩

/-- Claim C7: whenever the identifier selected by an in-range index is absent
from the image mapping or from the mask mapping, `__getitem__` fails with
`KeyError` naming that identifier.  The lookup mutates nothing: the dataset
value is left untouched (the embedded method is a pure function of it), so
the failure is fatal only to this single lookup and every other lookup on
the same index object behaves as before. -/
theorem c7_absent_identifier_raises_keyerror (ip mp : List FsPath) (idx : Int)
    (id_ : String)
    (hid : pyListGet (eyeballDataset.init ip mp).ids idx = .ok id_)
    (habs : dictGet (eyeballDataset.init ip mp).images id_ =
        .error (PyError.KeyError id_) ∨
      dictGet (eyeballDataset.init ip mp).masks id_ =
        .error (PyError.KeyError id_)) :
    (eyeballDataset.init ip mp).getitem idx =
      .error (PyError.KeyError id_) := by
  cases himg : dictGet (eyeballDataset.init ip mp).images id_ with
  | error e =>
    have he := dictGet_error_eq _ _ _ himg
    subst he
    simp [eyeballDataset.getitem, hid, himg]
  | ok p =>
    rcases habs with habs | habs
    · rw [himg] at habs; exact absurd habs (by simp)
    · simp [eyeballDataset.getitem, hid, himg, habs]

/-- Witness for claim C7: an image whose identifier has no mask file makes
`__getitem__` fail with a `KeyError` naming that identifier. -/
theorem c7_keyerror_witness :
    (pyListGet (eyeballDataset.init [⟨"data/training/images", "26_training"⟩]
        [⟨"data/training/mask", "27_training_mask"⟩]).ids 0 =
      .ok "26_training") ∧
    (dictGet (eyeballDataset.init [⟨"data/training/images", "26_training"⟩]
        [⟨"data/training/mask", "27_training_mask"⟩]).masks "26_training" =
      .error (PyError.KeyError "26_training")) ∧
    (eyeballDataset.init [⟨"data/training/images", "26_training"⟩]
        [⟨"data/training/mask", "27_training_mask"⟩]).getitem 0 =
      .error (PyError.KeyError "26_training") :=
  ⟨rfl, rfl,
    c7_absent_identifier_raises_keyerror _ _ 0 "26_training" rfl
      (Or.inr rfl)⟩

/-- Claim C8: the identifiers of the image mapping are exactly the image file
stems, verbatim; the identifiers of the mask mapping are exactly the results
of the five-character slice applied to the mask stems; and on any stem that
ends with the fixed suffix underscore-mask, that slice removes exactly the
suffix. -/
theorem c8_identifier_derivation :
    (∀ (ip mp : List FsPath) (k : String),
        k ∈ dictKeys (eyeballDataset.init ip mp).images ↔
          ∃ p ∈ ip, p.stem = k) ∧
    (∀ (ip mp : List FsPath) (k : String),
        k ∈ dictKeys (eyeballDataset.init ip mp).masks ↔
          ∃ p ∈ mp, pySliceDropLast p.stem 5 = k) ∧
    (∀ (base : String), pySliceDropLast (base ++ "_mask") 5 = base) := by
  refine ⟨?_, ?_, slice_strip⟩
  · intro ip mp k
    simp only [eyeballDataset.init, mem_dictKeys_dictOf, List.map_map,
      List.mem_map, Function.comp]
  · intro ip mp k
    simp only [eyeballDataset.init, mem_dictKeys_dictOf, List.map_map,
      List.mem_map, Function.comp]

/-- Witness for claim C8 at a concrete stem and a concrete one-image
directory. -/
theorem c8_derivation_witness :
    pySliceDropLast ("21_training" ++ "_mask") 5 = "21_training" ∧
    ("21_training" ∈ dictKeys (eyeballDataset.init
        [⟨"data/training/images", "21_training"⟩] []).images ↔
      ∃ p ∈ [(⟨"data/training/images", "21_training"⟩ : FsPath)],
        p.stem = "21_training") :=
  ⟨c8_identifier_derivation.2.2 "21_training",
    c8_identifier_derivation.1 [⟨"data/training/images", "21_training"⟩] []
      "21_training"⟩

/-- Claim C9: on every constructed dataset, whenever the selected identifier
is present in both mappings, `__getitem__` raises `TypeError` — the
`self.transforms` attribute is a set literal and a set object is not
callable — and, in full generality, no invocation of `__getitem__` on any
constructed dataset ever returns an image and mask pair. -/
theorem c9_getitem_always_typeerror :
    (∀ (ip mp : List FsPath) (idx : Int) (id_ : String) (pi pm : FsPath),
        pyListGet (eyeballDataset.init ip mp).ids idx = .ok id_ →
        dictGet (eyeballDataset.init ip mp).images id_ = .ok pi →
        dictGet (eyeballDataset.init ip mp).masks id_ = .ok pm →
        (eyeballDataset.init ip mp).getitem idx =
          .error (PyError.TypeError "set object is not callable")) ∧
    (∀ (ip mp : List FsPath) (idx : Int) (r : PILImage × PILImage),
        (eyeballDataset.init ip mp).getitem idx ≠ .ok r) := by
  constructor
  · intro ip mp idx id_ pi pm hid himg hmsk
    simp [eyeballDataset.getitem, hid, himg, hmsk, pyCallSet]
  · intro ip mp idx r hcontra
    cases hid : pyListGet (eyeballDataset.init ip mp).ids idx with
    | error e => simp [eyeballDataset.getitem, hid] at hcontra
    | ok id_ =>
      cases himg : dictGet (eyeballDataset.init ip mp).images id_ with
      | error e => simp [eyeballDataset.getitem, hid, himg] at hcontra
      | ok p =>
        cases hmsk : dictGet (eyeballDataset.init ip mp).masks id_ with
        | error e => simp [eyeballDataset.getitem, hid, himg, hmsk] at hcontra
        | ok q =>
          simp [eyeballDataset.getitem, hid, himg, hmsk, pyCallSet] at hcontra

/-- Witness for claim C9: on a perfectly matched one-sample dataset, item
access at index 0 raises the `TypeError`. -/
theorem c9_typeerror_witness :
    (pyListGet (eyeballDataset.init [⟨"data/training/images", "28_training"⟩]
        [⟨"data/training/mask", "28_training_mask"⟩]).ids 0 =
      .ok "28_training") ∧
    (eyeballDataset.init [⟨"data/training/images", "28_training"⟩]
        [⟨"data/training/mask", "28_training_mask"⟩]).getitem 0 =
      .error (PyError.TypeError "set object is not callable") :=
  ⟨rfl,
    c9_getitem_always_typeerror.1 _ _ 0 "28_training"
      ⟨"data/training/images", "28_training"⟩
      ⟨"data/training/mask", "28_training_mask"⟩
      rfl rfl rfl⟩

/-- Claim C10: the id list is built from the image mapping's keys, so the
identifier selected by any in-range index always resolves in the image
mapping — `self.images[id_]` cannot fail there — and the only `KeyError` an
in-range `__getitem__` can produce comes from the mask lookup
`self.masks[id_]`. -/
theorem c10_image_lookup_never_fails (ip mp : List FsPath) (idx : Int)
    (id_ : String)
    (hid : pyListGet (eyeballDataset.init ip mp).ids idx = .ok id_) :
    (∃ p, dictGet (eyeballDataset.init ip mp).images id_ = .ok p) ∧
    (∀ k, (eyeballDataset.init ip mp).getitem idx =
        .error (PyError.KeyError k) →
      dictGet (eyeballDataset.init ip mp).masks k =
        .error (PyError.KeyError k)) := by
  have hmem : id_ ∈ (eyeballDataset.init ip mp).ids := pyListGet_ok_mem _ _ _ hid
  have hkeys : id_ ∈ dictKeys (eyeballDataset.init ip mp).images := hmem
  obtain ⟨p, hp⟩ := dictGet_ok_of_mem_keys _ _ hkeys
  refine ⟨⟨p, hp⟩, ?_⟩
  intro k hk
  cases hmsk : dictGet (eyeballDataset.init ip mp).masks id_ with
  | error e =>
    have he := dictGet_error_eq _ _ _ hmsk
    subst he
    rw [show k = id_ from ?_]
    · exact hmsk
    · simp [eyeballDataset.getitem, hid, hp, hmsk] at hk
      exact hk.symm
  | ok q =>
    exfalso
    simp [eyeballDataset.getitem, hid, hp, hmsk, pyCallSet] at hk

/-- Witness for claim C10 on a concrete matched dataset at index 0. -/
theorem c10_lookup_witness :
    (pyListGet (eyeballDataset.init [⟨"data/training/images", "29_training"⟩]
        [⟨"data/training/mask", "29_training_mask"⟩]).ids 0 =
      .ok "29_training") ∧
    ((∃ p, dictGet (eyeballDataset.init [⟨"data/training/images", "29_training"⟩]
        [⟨"data/training/mask", "29_training_mask"⟩]).images "29_training" =
        .ok p) ∧
      (∀ k, (eyeballDataset.init [⟨"data/training/images", "29_training"⟩]
          [⟨"data/training/mask", "29_training_mask"⟩]).getitem 0 =
          .error (PyError.KeyError k) →
        dictGet (eyeballDataset.init [⟨"data/training/images", "29_training"⟩]
            [⟨"data/training/mask", "29_training_mask"⟩]).masks k =
          .error (PyError.KeyError k))) :=
  ⟨rfl,
    c10_image_lookup_never_fails _ _ 0 "29_training" rfl⟩
